import Mathlib

/-!
Verification of the libxdg-basedir directory-resolution library against its
design specification.  The public contract is the header `include/basedir.h`;
the implementation file `basedir.c` is not part of the sources available here,
so the operations declared by the header are modelled from the specification
(each such definition carries a doc comment starting `Modelled from the
spec:`).  The environment, the allocator and the filesystem are external
collaborators and are modelled as oracle functions.
-/

namespace XdgBasedir

/-- The environment: an external key-to-string lookup service. -/
def Env : Type := String → Option String

/-- Platform path-list delimiter used when splitting dirs variables. -/
def pathListDelim : Char := ':'

/-- Name of the environment variable holding the data home directory. -/
def DATA_HOME_VAR : String := "XDG_DATA_HOME"

/-- Name of the environment variable holding the config home directory. -/
def CONFIG_HOME_VAR : String := "XDG_CONFIG_HOME"

/-- Name of the environment variable holding the cache home directory. -/
def CACHE_HOME_VAR : String := "XDG_CACHE_HOME"

/-- Name of the environment variable holding the data dirs list. -/
def DATA_DIRS_VAR : String := "XDG_DATA_DIRS"

/-- Name of the environment variable holding the config dirs list. -/
def CONFIG_DIRS_VAR : String := "XDG_CONFIG_DIRS"

/-- Name of the environment variable holding the user home directory. -/
def HOME_VAR : String := "HOME"

/-- Documented default for the data dirs variable when unset or empty. -/
def DATA_DIRS_DEFAULT : String := "/usr/local/share/:/usr/share/"

/-- Documented default for the config dirs variable when unset or empty. -/
def CONFIG_DIRS_DEFAULT : String := "/etc/xdg"

/-- Documented default for the data home directory, relative to home. -/
def dataHomeDefault (home : String) : String := home ++ "/.local/share"

/-- Documented default for the config home directory, relative to home. -/
def configHomeDefault (home : String) : String := home ++ "/.config"

/-- Documented default for the cache home directory, relative to home. -/
def cacheHomeDefault (home : String) : String := home ++ "/.cache"

/-- Modelled from the spec: the environment resolver of the missing
implementation file `basedir.c`.  Looks up `varName` in the environment; if
present and non-empty, returns the value verbatim; otherwise returns the
default.  No normalization, no trimming. -/
def resolveValue (env : Env) (varName deflt : String) : String :=
  match env varName with
  | some v => if v = "" then deflt else v
  | none => deflt

/-- Modelled from the spec: the list splitter of the missing implementation
file `basedir.c`.  Splits a resolved value on the platform path-list
delimiter, drops zero-length segments, preserves order, and does not
deduplicate repeated identical paths. -/
def splitList (resolvedValue : String) : List String :=
  ((resolvedValue.data.splitOn pathListDelim).map String.mk).filter
    (fun s => decide (s ≠ ""))

/-- One immutable snapshot of the cache: the resolved home directories and
directory lists for the three resource classes. -/
structure Snapshot where
  dataHome : String
  configHome : String
  cacheHome : String
  dataDirs : List String
  configDirs : List String
  deriving Repr, DecidableEq

/-- Modelled from the spec: the full resolution procedure of the missing
implementation file `basedir.c`, ignoring allocation: resolve each home
variable against its documented default (the home defaults use the resolved
`HOME`; the behavior when `HOME` is itself unresolvable is the spec's open
question and is not relied on by any theorem below) and split each dirs
variable into a directory list. -/
def resolveSnapshot (env : Env) : Snapshot :=
  let home := resolveValue env HOME_VAR ""
  { dataHome := resolveValue env DATA_HOME_VAR (dataHomeDefault home)
    configHome := resolveValue env CONFIG_HOME_VAR (configHomeDefault home)
    cacheHome := resolveValue env CACHE_HOME_VAR (cacheHomeDefault home)
    dataDirs := splitList (resolveValue env DATA_DIRS_VAR DATA_DIRS_DEFAULT)
    configDirs :=
      splitList (resolveValue env CONFIG_DIRS_VAR CONFIG_DIRS_DEFAULT) }

/-- Allocation of one owned string during a snapshot build; allocation
number `n` succeeds iff the allocator oracle `alloc` grants it. -/
def allocString (alloc : Nat → Bool) (n : Nat) (s : String) :
    Option String :=
  if alloc n then some s else none

/-- Allocation of one owned directory list during a snapshot build;
allocation number `n` succeeds iff the allocator oracle `alloc` grants it. -/
def allocList (alloc : Nat → Bool) (n : Nat) (l : List String) :
    Option (List String) :=
  if alloc n then some l else none

/-- Modelled from the spec: building a fresh snapshot in the missing
implementation file `basedir.c`.  Each owned string and list requires an
allocation, which the allocator oracle may refuse; a refusal at any point
makes the whole build fail with no partial snapshot. -/
def buildSnapshot (alloc : Nat → Bool) (env : Env) : Option Snapshot := do
  let home := resolveValue env HOME_VAR ""
  let dh ← allocString alloc 0 (resolveValue env DATA_HOME_VAR
    (dataHomeDefault home))
  let ch ← allocString alloc 1 (resolveValue env CONFIG_HOME_VAR
    (configHomeDefault home))
  let cah ← allocString alloc 2 (resolveValue env CACHE_HOME_VAR
    (cacheHomeDefault home))
  let dd ← allocList alloc 3 (splitList
    (resolveValue env DATA_DIRS_VAR DATA_DIRS_DEFAULT))
  let cd ← allocList alloc 4 (splitList
    (resolveValue env CONFIG_DIRS_VAR CONFIG_DIRS_DEFAULT))
  pure { dataHome := dh, configHome := ch, cacheHome := cah,
         dataDirs := dd, configDirs := cd }

/-- Modelled from the spec: `xdgUpdateData` (rebuild) of the missing
implementation file `basedir.c`.  Re-runs the full resolution into a fresh
snapshot; on success atomically replaces the current snapshot and returns
true; on any failure leaves the existing snapshot untouched and returns
false.  Returns the flag together with the resulting cache state. -/
def xdgUpdateData (alloc : Nat → Bool) (env : Env) (c : Snapshot) :
    Bool × Snapshot :=
  match buildSnapshot alloc env with
  | some fresh => (true, fresh)
  | none => (false, c)

/-- Modelled from the spec: `xdgAllocHandle` of the missing implementation
file `basedir.c`.  Allocates the handle itself (allocation 0), then runs the
full resolution for all three resource classes; returns `none` (the failure
indicator 0) if any backing storage cannot be obtained, never a partially
initialized handle. -/
def xdgAllocHandle (alloc : Nat → Bool) (env : Env) : Option Snapshot :=
  if alloc 0 then buildSnapshot (fun n => alloc (n + 1)) env else none

/-- Accessor `xdgDataHome`: pure read of the current snapshot. -/
def xdgDataHome (s : Snapshot) : String := s.dataHome

/-- Accessor `xdgConfigHome`: pure read of the current snapshot. -/
def xdgConfigHome (s : Snapshot) : String := s.configHome

/-- Accessor `xdgCacheHome`: pure read of the current snapshot. -/
def xdgCacheHome (s : Snapshot) : String := s.cacheHome

/-- Accessor `xdgDataDirectories`: pure read of the current snapshot. -/
def xdgDataDirectories (s : Snapshot) : List String := s.dataDirs

/-- Accessor `xdgConfigDirectories`: pure read of the current snapshot. -/
def xdgConfigDirectories (s : Snapshot) : List String := s.configDirs

/-- Modelled from the spec: `xdgSearchableDataDirectories` of the missing
implementation file `basedir.c` — the data home prepended to the data dirs
list, home at rank 0. -/
def xdgSearchableDataDirectories (s : Snapshot) : List String :=
  s.dataHome :: s.dataDirs

/-- Modelled from the spec: `xdgSearchableConfigDirectories` of the missing
implementation file `basedir.c` — the config home prepended to the config
dirs list, home at rank 0. -/
def xdgSearchableConfigDirectories (s : Snapshot) : List String :=
  s.configHome :: s.configDirs

/-- The candidate filename tried for directory `d` and a relative path. -/
def candidate (d relativePath : String) : String :=
  d ++ "/" ++ relativePath

/-- Modelled from the spec: the search loop of `find` in the missing
implementation file `basedir.c`.  For each directory in order, test the
candidate `d/relativePath` with the existence-and-readability oracle `fs`
and collect the successful filenames, in order, duplicates preserved. -/
def findIn (fs : String → Bool) (relativePath : String) :
    List String → List String
  | [] => []
  | d :: ds =>
    if fs (candidate d relativePath)
    then candidate d relativePath :: findIn fs relativePath ds
    else findIn fs relativePath ds

/-- Modelled from the spec: `xdgDataFind` of the missing implementation file
`basedir.c`: the search loop run over the data searchable list. -/
def xdgDataFind (fs : String → Bool) (relativePath : String)
    (s : Snapshot) : List String :=
  findIn fs relativePath (xdgSearchableDataDirectories s)

/-- Modelled from the spec: `xdgConfigFind` of the missing implementation
file `basedir.c`: the search loop run over the config searchable list. -/
def xdgConfigFind (fs : String → Bool) (relativePath : String)
    (s : Snapshot) : List String :=
  findIn fs relativePath (xdgSearchableConfigDirectories s)

/-- Modelled from the spec: the open loop of `open` in the missing
implementation file `basedir.c`.  Attempts `fopen` on each candidate in
order and returns the first successful stream, or `none` when every
candidate fails. -/
def openIn {α : Type} (fopen : String → Option α)
    (relativePath : String) : List String → Option α
  | [] => none
  | d :: ds =>
    match fopen (candidate d relativePath) with
    | some f => some f
    | none => openIn fopen relativePath ds

/-- The open loop instrumented with the list of candidates it actually
attempts, for stating that enumeration stops at the first success and
otherwise runs to the end. -/
def openTrace {α : Type} (fopen : String → Option α)
    (relativePath : String) : List String → Option α × List String
  | [] => (none, [])
  | d :: ds =>
    match fopen (candidate d relativePath) with
    | some f => (some f, [candidate d relativePath])
    | none =>
      let r := openTrace fopen relativePath ds
      (r.1, candidate d relativePath :: r.2)

/-- Modelled from the spec: `xdgDataOpen` of the missing implementation file
`basedir.c`: the open loop run over the data searchable list. -/
def xdgDataOpen {α : Type} (fopen : String → Option α)
    (relativePath : String) (s : Snapshot) : Option α :=
  openIn fopen relativePath (xdgSearchableDataDirectories s)

/-- Modelled from the spec: `xdgConfigOpen` of the missing implementation
file `basedir.c`: the open loop run over the config searchable list. -/
def xdgConfigOpen {α : Type} (fopen : String → Option α)
    (relativePath : String) (s : Snapshot) : Option α :=
  openIn fopen relativePath (xdgSearchableConfigDirectories s)

/-- The double-null result encoding of `find` documented in `basedir.h`:
each match is laid out as its characters followed by a null terminator, and
the whole sequence is terminated by one further null (an empty string). -/
def encodeSeq (ms : List String) : List Char :=
  (ms.map (fun m => m.data ++ ['\x00'])).flatten ++ ['\x00']

/-- Characters of the current string in the encoded buffer: everything up
to the next null terminator. -/
def takeToNull : List Char → List Char
  | [] => []
  | c :: cs => if c = '\x00' then [] else c :: takeToNull cs

/-- Rest of the encoded buffer after the current string and its null
terminator. -/
def dropPastNull : List Char → List Char
  | [] => []
  | c :: cs => if c = '\x00' then cs else dropPastNull cs

theorem dropPastNull_length_le (l : List Char) :
    (dropPastNull l).length ≤ l.length := by
  induction l with
  | nil => exact Nat.le_refl 0
  | cons c cs ih =>
    simp only [dropPastNull]
    split
    · exact Nat.le_succ cs.length
    · exact Nat.le_trans ih (Nat.le_succ cs.length)

/-- Reader of the double-null encoding: collect consecutive null-terminated
strings, stopping at the first empty one (the terminating double null). -/
def decodeSeq : List Char → List String
  | [] => []
  | c :: cs =>
    if c = '\x00' then []
    else String.mk (c :: takeToNull cs) :: decodeSeq (dropPastNull cs)
  termination_by l => l.length
  decreasing_by
    simp only [List.length_cons]
    exact Nat.lt_succ_of_le (dropPastNull_length_le cs)

theorem buildSnapshot_eq (alloc : Nat → Bool) (env : Env) :
    buildSnapshot alloc env =
      if alloc 0 && alloc 1 && alloc 2 && alloc 3 && alloc 4
      then some (resolveSnapshot env) else none := by
  unfold buildSnapshot resolveSnapshot allocString allocList
  cases h0 : alloc 0 <;> cases h1 : alloc 1 <;> cases h2 : alloc 2 <;>
    cases h3 : alloc 3 <;> cases h4 : alloc 4 <;>
    simp [h0, h1, h2, h3, h4, Option.bind]

theorem buildSnapshot_some (alloc : Nat → Bool) (env : Env)
    (s : Snapshot) (h : buildSnapshot alloc env = some s) :
    s = resolveSnapshot env := by
  rw [buildSnapshot_eq] at h
  by_cases hc : (alloc 0 && alloc 1 && alloc 2 && alloc 3 && alloc 4) = true
  · rw [if_pos hc] at h
    exact (Option.some.inj h).symm
  · rw [if_neg hc] at h
    exact absurd h (Option.noConfusion)

theorem findIn_eq_filter (fs : String → Bool) (rel : String)
    (dirs : List String) :
    findIn fs rel dirs =
      (dirs.map (fun d => candidate d rel)).filter fs := by
  induction dirs with
  | nil => rfl
  | cons d ds ih =>
    simp only [findIn, List.map_cons, List.filter_cons]
    cases h : fs (candidate d rel) <;> simp [h, ih]

theorem findIn_nil_of_all_fail (fs : String → Bool) (rel : String)
    (dirs : List String)
    (h : ∀ d ∈ dirs, fs (candidate d rel) = false) :
    findIn fs rel dirs = [] := by
  induction dirs with
  | nil => rfl
  | cons d ds ih =>
    simp only [findIn, h d (List.mem_cons_self d ds)]
    exact ih (fun x hx => h x (List.mem_cons_of_mem d hx))

theorem findIn_mem (fs : String → Bool) (rel : String)
    (dirs : List String) (f : String) (hf : f ∈ findIn fs rel dirs) :
    ∃ d ∈ dirs, f = candidate d rel ∧ fs f = true := by
  induction dirs with
  | nil => exact absurd hf (List.not_mem_nil f)
  | cons d ds ih =>
    by_cases h : fs (candidate d rel) = true
    · rw [findIn, if_pos h] at hf
      rcases List.mem_cons.mp hf with h1 | h1
      · exact ⟨d, List.mem_cons_self d ds, h1, h1 ▸ h⟩
      · rcases ih h1 with ⟨e, he, hc, hfs⟩
        exact ⟨e, List.mem_cons_of_mem d he, hc, hfs⟩
    · rw [findIn, if_neg h] at hf
      rcases ih hf with ⟨e, he, hc, hfs⟩
      exact ⟨e, List.mem_cons_of_mem d he, hc, hfs⟩

theorem openIn_eq_find {α : Type} (fopen : String → Option α)
    (rel : String) (dirs : List String) :
    openIn fopen rel dirs =
      ((findIn (fun f => (fopen f).isSome) rel dirs).head?).bind fopen := by
  induction dirs with
  | nil => rfl
  | cons d ds ih =>
    simp only [openIn, findIn]
    by_cases h : (fopen (candidate d rel)).isSome = true
    · obtain ⟨f, hf⟩ := Option.isSome_iff_exists.mp h
      simp [hf]
    · rw [Option.not_isSome_iff_eq_none] at h
      simp only [h]
      simp [ih]

theorem openTrace_fst {α : Type} (fopen : String → Option α)
    (rel : String) (dirs : List String) :
    (openTrace fopen rel dirs).1 = openIn fopen rel dirs := by
  induction dirs with
  | nil => rfl
  | cons d ds ih =>
    simp only [openTrace, openIn]
    by_cases h : (fopen (candidate d rel)).isSome = true
    · obtain ⟨f, hf⟩ := Option.isSome_iff_exists.mp h
      simp only [hf]
    · rw [Option.not_isSome_iff_eq_none] at h
      simp only [h]
      simpa using ih

theorem openTrace_snd {α : Type} (fopen : String → Option α)
    (rel : String) (dirs : List String) :
    (openTrace fopen rel dirs).2 =
      (dirs.map (fun d => candidate d rel)).takeWhile
          (fun f => (fopen f).isNone)
        ++ ((dirs.map (fun d => candidate d rel)).dropWhile
          (fun f => (fopen f).isNone)).take 1 := by
  induction dirs with
  | nil => rfl
  | cons d ds ih =>
    simp only [openTrace, List.map_cons, List.takeWhile_cons,
      List.dropWhile_cons]
    by_cases h : (fopen (candidate d rel)).isSome = true
    · obtain ⟨f, hf⟩ := Option.isSome_iff_exists.mp h
      simp [hf]
    · rw [Option.not_isSome_iff_eq_none] at h
      simp only [h]
      simp [ih]

theorem splitList_ne_empty (v : String) (x : String)
    (hx : x ∈ splitList v) : x ≠ "" :=
  of_decide_eq_true (List.mem_filter.mp hx).2

theorem encodeSeq_nil : encodeSeq [] = ['\x00'] := rfl

theorem encodeSeq_cons (m : String) (ms : List String) :
    encodeSeq (m :: ms) = m.data ++ '\x00' :: encodeSeq ms := by
  simp [encodeSeq]

theorem takeToNull_append (m rest : List Char) (h : '\x00' ∉ m) :
    takeToNull (m ++ '\x00' :: rest) = m := by
  induction m with
  | nil => simp [takeToNull]
  | cons c cs ih =>
    have hc : c ≠ '\x00' := fun hcc => h (hcc ▸ List.mem_cons_self c cs)
    rw [List.cons_append, takeToNull, if_neg hc,
      ih (fun hm => h (List.mem_cons_of_mem c hm))]

theorem dropPastNull_append (m rest : List Char) (h : '\x00' ∉ m) :
    dropPastNull (m ++ '\x00' :: rest) = rest := by
  induction m with
  | nil => simp [dropPastNull]
  | cons c cs ih =>
    have hc : c ≠ '\x00' := fun hcc => h (hcc ▸ List.mem_cons_self c cs)
    rw [List.cons_append, dropPastNull, if_neg hc]
    exact ih (fun hm => h (List.mem_cons_of_mem c hm))

theorem decodeSeq_cons (c : Char) (cs : List Char) :
    decodeSeq (c :: cs) =
      if c = '\x00' then []
      else String.mk (c :: takeToNull cs) :: decodeSeq (dropPastNull cs) := by
  rw [decodeSeq]

theorem decodeSeq_encodeSeq (ms : List String)
    (h : ∀ m ∈ ms, m ≠ "" ∧ '\x00' ∉ m.data) :
    decodeSeq (encodeSeq ms) = ms := by
  induction ms with
  | nil =>
    rw [encodeSeq_nil, decodeSeq_cons, if_pos rfl]
  | cons m ms ih =>
    have hm := h m (List.mem_cons_self m ms)
    have hms : ∀ x ∈ ms, x ≠ "" ∧ '\x00' ∉ x.data :=
      fun x hx => h x (List.mem_cons_of_mem m hx)
    rw [encodeSeq_cons]
    rcases hd : m.data with _ | ⟨c, cs⟩
    · exact absurd (String.ext (hd.trans rfl)) hm.1
    · have hc : c ≠ '\x00' := by
        intro hcc
        exact hm.2 (hd ▸ (hcc ▸ List.mem_cons_self c cs))
      have hcs : '\x00' ∉ cs := by
        intro hmem
        exact hm.2 (hd ▸ List.mem_cons_of_mem c hmem)
      rw [List.cons_append, decodeSeq_cons, if_neg hc,
        takeToNull_append cs (encodeSeq ms) hcs,
        dropPastNull_append cs (encodeSeq ms) hcs,
        ih hms]
      have hmk : String.mk (c :: cs) = m := String.ext (by rw [hd])
      rw [hmk]

theorem candidate_data (d rel : String) :
    (candidate d rel).data = d.data ++ '/' :: rel.data := by
  show (d.data ++ ['/']) ++ rel.data = d.data ++ '/' :: rel.data
  simp

theorem candidate_ne_empty (d rel : String) : candidate d rel ≠ "" := by
  intro h
  have hdata : (candidate d rel).data = [] := by rw [h]
  rw [candidate_data] at hdata
  exact absurd hdata (by simp)

theorem candidate_no_null (d rel : String) (hd : '\x00' ∉ d.data)
    (hrel : '\x00' ∉ rel.data) : '\x00' ∉ (candidate d rel).data := by
  rw [candidate_data]
  intro hmem
  rcases List.mem_append.mp hmem with h1 | h1
  · exact hd h1
  · rcases List.mem_cons.mp h1 with h2 | h2
    · exact absurd h2 (by decide)
    · exact hrel h2

theorem findIn_ne_empty (fs : String → Bool) (rel : String)
    (dirs : List String) (f : String) (hf : f ∈ findIn fs rel dirs) :
    f ≠ "" := by
  rcases findIn_mem fs rel dirs f hf with ⟨d, _, hcand, _⟩
  rw [hcand]
  exact candidate_ne_empty d rel

theorem findIn_no_null (fs : String → Bool) (rel : String)
    (dirs : List String) (hrel : '\x00' ∉ rel.data)
    (hdirs : ∀ d ∈ dirs, '\x00' ∉ d.data) (f : String)
    (hf : f ∈ findIn fs rel dirs) : '\x00' ∉ f.data := by
  rcases findIn_mem fs rel dirs f hf with ⟨d, hd, hcand, _⟩
  rw [hcand]
  exact candidate_no_null d rel (hdirs d hd) hrel

theorem openIn_none {α : Type} (fopen : String → Option α) (rel : String)
    (dirs : List String)
    (h : ∀ d ∈ dirs, fopen (candidate d rel) = none) :
    openIn fopen rel dirs = none := by
  rw [openIn_eq_find]
  have hfail : ∀ d ∈ dirs,
      (fun f => (fopen f).isSome) (candidate d rel) = false := by
    intro d hd
    show (fopen (candidate d rel)).isSome = false
    rw [h d hd]
    rfl
  rw [findIn_nil_of_all_fail _ _ _ hfail]
  rfl

theorem xdgUpdateData_true (alloc : Nat → Bool) (env : Env) (c : Snapshot)
    (h : (xdgUpdateData alloc env c).1 = true) :
    (xdgUpdateData alloc env c).2 = resolveSnapshot env := by
  unfold xdgUpdateData at h ⊢
  cases hb : buildSnapshot alloc env with
  | none =>
    rw [hb] at h
    exact Bool.noConfusion h
  | some fresh =>
    exact buildSnapshot_some alloc env fresh hb

theorem xdgUpdateData_false (alloc : Nat → Bool) (env : Env) (c : Snapshot)
    (h : (xdgUpdateData alloc env c).1 = false) :
    (xdgUpdateData alloc env c).2 = c := by
  unfold xdgUpdateData at h ⊢
  cases hb : buildSnapshot alloc env with
  | none => rfl
  | some fresh =>
    rw [hb] at h
    exact Bool.noConfusion h

/-- A concrete environment for witnesses: HOME set, all XDG variables
unset. -/
def envHomeOnly : Env := fun v => if v = "HOME" then some "/home/user" else none

/-- A concrete initial snapshot for witnesses. -/
def snapInit : Snapshot :=
  { dataHome := "dh", configHome := "ch", cacheHome := "cah",
    dataDirs := ["d1"], configDirs := ["c1"] }

/-- Allocator oracle that always succeeds. -/
def allocAll : Nat → Bool := fun _ => true

/-- Claim C1: for every allocator behavior, environment and cache state, if
rebuild (`xdgUpdateData`) fails it returns false and every accessor of the
cache returns exactly the value it returned before the call; if it succeeds
it returns true and the whole snapshot is replaced at once by the fresh
resolution, so the observable state is always either entirely the old
snapshot or entirely the new one, never a mixture. -/
theorem claim_C1 (alloc : Nat → Bool) (env : Env) (c : Snapshot) :
    ((xdgUpdateData alloc env c).1 = false →
        xdgDataHome (xdgUpdateData alloc env c).2 = xdgDataHome c
      ∧ xdgConfigHome (xdgUpdateData alloc env c).2 = xdgConfigHome c
      ∧ xdgCacheHome (xdgUpdateData alloc env c).2 = xdgCacheHome c
      ∧ xdgDataDirectories (xdgUpdateData alloc env c).2 =
          xdgDataDirectories c
      ∧ xdgConfigDirectories (xdgUpdateData alloc env c).2 =
          xdgConfigDirectories c
      ∧ xdgSearchableDataDirectories (xdgUpdateData alloc env c).2 =
          xdgSearchableDataDirectories c
      ∧ xdgSearchableConfigDirectories (xdgUpdateData alloc env c).2 =
          xdgSearchableConfigDirectories c)
  ∧ ((xdgUpdateData alloc env c).1 = true →
      (xdgUpdateData alloc env c).2 = resolveSnapshot env)
  ∧ ((xdgUpdateData alloc env c).2 = c ∨
      (xdgUpdateData alloc env c).2 = resolveSnapshot env) := by
  refine ⟨fun h => ?_, fun h => xdgUpdateData_true alloc env c h, ?_⟩
  · rw [xdgUpdateData_false alloc env c h]
    exact ⟨rfl, rfl, rfl, rfl, rfl, rfl, rfl⟩
  · cases hflag : (xdgUpdateData alloc env c).1 with
    | false => exact Or.inl (xdgUpdateData_false alloc env c hflag)
    | true => exact Or.inr (xdgUpdateData_true alloc env c hflag)

/-- Claim C2: for every handle obtained from a successful allocate and after
every successful rebuild, the searchable data list is exactly the data home
prepended to the data dirs list (so its first element is the data home), and
likewise for the config class. -/
theorem claim_C2 (alloc : Nat → Bool) (env : Env) (c s : Snapshot)
    (h : xdgAllocHandle alloc env = some s ∨
      ((xdgUpdateData alloc env c).1 = true ∧
        (xdgUpdateData alloc env c).2 = s)) :
    xdgSearchableDataDirectories s = xdgDataHome s :: xdgDataDirectories s
  ∧ (xdgSearchableDataDirectories s).head? = some (xdgDataHome s)
  ∧ xdgSearchableConfigDirectories s =
      xdgConfigHome s :: xdgConfigDirectories s
  ∧ (xdgSearchableConfigDirectories s).head? = some (xdgConfigHome s) :=
  ⟨rfl, rfl, rfl, rfl⟩

theorem claim_C2_witness :
    (xdgAllocHandle allocAll envHomeOnly =
        some (resolveSnapshot envHomeOnly) ∨
      ((xdgUpdateData allocAll envHomeOnly snapInit).1 = true ∧
        (xdgUpdateData allocAll envHomeOnly snapInit).2 =
          resolveSnapshot envHomeOnly))
  ∧ (xdgSearchableDataDirectories (resolveSnapshot envHomeOnly) =
      xdgDataHome (resolveSnapshot envHomeOnly) ::
        xdgDataDirectories (resolveSnapshot envHomeOnly)
    ∧ (xdgSearchableDataDirectories (resolveSnapshot envHomeOnly)).head? =
        some (xdgDataHome (resolveSnapshot envHomeOnly))
    ∧ xdgSearchableConfigDirectories (resolveSnapshot envHomeOnly) =
        xdgConfigHome (resolveSnapshot envHomeOnly) ::
          xdgConfigDirectories (resolveSnapshot envHomeOnly)
    ∧ (xdgSearchableConfigDirectories (resolveSnapshot envHomeOnly)).head? =
        some (xdgConfigHome (resolveSnapshot envHomeOnly))) :=
  ⟨Or.inl rfl,
    claim_C2 allocAll envHomeOnly snapInit (resolveSnapshot envHomeOnly)
      (Or.inl rfl)⟩

/-- Claim C3: find returns exactly the candidates `d/relativePath` that pass
the existence-and-readability test, in the same order as the class's
searchable list (home first, then each dirs entry in order), duplicates
preserved when the searchable list contains duplicates, and the empty
sequence (not an error) when no candidate matches; the spec's fixture over
the searchable list `["/x", "/y", "/z"]` is included concretely. -/
theorem claim_C3 (fs : String → Bool) (rel : String) (s : Snapshot) :
    (xdgDataFind fs rel s =
      ((xdgSearchableDataDirectories s).map
        (fun d => candidate d rel)).filter fs)
  ∧ (xdgConfigFind fs rel s =
      ((xdgSearchableConfigDirectories s).map
        (fun d => candidate d rel)).filter fs)
  ∧ ((∀ d ∈ xdgSearchableDataDirectories s,
        fs (candidate d rel) = false) → xdgDataFind fs rel s = [])
  ∧ ((∀ d ∈ xdgSearchableConfigDirectories s,
        fs (candidate d rel) = false) → xdgConfigFind fs rel s = [])
  ∧ (findIn
      (fun f => (f == "/y/app/config.ini") || (f == "/z/app/config.ini"))
      "app/config.ini" ["/x", "/y", "/z"] =
      ["/y/app/config.ini", "/z/app/config.ini"])
  ∧ (findIn (fun _ => true) rel [xdgDataHome s, xdgDataHome s] =
      [candidate (xdgDataHome s) rel, candidate (xdgDataHome s) rel]) :=
  ⟨findIn_eq_filter fs rel (xdgSearchableDataDirectories s),
   findIn_eq_filter fs rel (xdgSearchableConfigDirectories s),
   fun h => findIn_nil_of_all_fail fs rel _ h,
   fun h => findIn_nil_of_all_fail fs rel _ h,
   by decide,
   rfl⟩

/-- Claim C4: splitting a resolved value into a directory list splits on the
platform path-list delimiter, drops every zero-length segment, preserves the
order of the remaining segments and does not deduplicate repeated identical
paths; "/a:/b::/c" yields exactly ["/a", "/b", "/c"] and a value consisting
solely of delimiters yields the empty list rather than an error. -/
theorem claim_C4 :
    (∀ v : String, ∀ x ∈ splitList v, x ≠ "")
  ∧ splitList "/a:/b::/c" = ["/a", "/b", "/c"]
  ∧ splitList ":::" = []
  ∧ splitList "/a:/a" = ["/a", "/a"] :=
  ⟨splitList_ne_empty, by decide, by decide, by decide⟩

/-- Claim C5: for every environment in which the corresponding variable is
unset, the documented default is substituted verbatim: the data dirs default
is ["/usr/local/share/", "/usr/share/"], the config dirs default is
["/etc/xdg"], and the home defaults are HOME/.local/share, HOME/.config and
HOME/.cache. -/
theorem claim_C5 (env : Env) (home : String)
    (hhome : env HOME_VAR = some home) (hne : home ≠ "") :
    (env DATA_DIRS_VAR = none →
      xdgDataDirectories (resolveSnapshot env) =
        ["/usr/local/share/", "/usr/share/"])
  ∧ (env CONFIG_DIRS_VAR = none →
      xdgConfigDirectories (resolveSnapshot env) = ["/etc/xdg"])
  ∧ (env DATA_HOME_VAR = none →
      xdgDataHome (resolveSnapshot env) = home ++ "/.local/share")
  ∧ (env CONFIG_HOME_VAR = none →
      xdgConfigHome (resolveSnapshot env) = home ++ "/.config")
  ∧ (env CACHE_HOME_VAR = none →
      xdgCacheHome (resolveSnapshot env) = home ++ "/.cache") := by
  have hres : resolveValue env HOME_VAR "" = home := by
    unfold resolveValue
    rw [hhome]
    show (if home = "" then "" else home) = home
    rw [if_neg hne]
  refine ⟨fun h => ?_, fun h => ?_, fun h => ?_, fun h => ?_, fun h => ?_⟩
  · show splitList (resolveValue env DATA_DIRS_VAR DATA_DIRS_DEFAULT) =
      ["/usr/local/share/", "/usr/share/"]
    unfold resolveValue
    rw [h]
    decide
  · show splitList (resolveValue env CONFIG_DIRS_VAR CONFIG_DIRS_DEFAULT) =
      ["/etc/xdg"]
    unfold resolveValue
    rw [h]
    decide
  · show resolveValue env DATA_HOME_VAR
      (dataHomeDefault (resolveValue env HOME_VAR "")) =
        home ++ "/.local/share"
    rw [hres]
    unfold resolveValue
    rw [h]
    rfl
  · show resolveValue env CONFIG_HOME_VAR
      (configHomeDefault (resolveValue env HOME_VAR "")) =
        home ++ "/.config"
    rw [hres]
    unfold resolveValue
    rw [h]
    rfl
  · show resolveValue env CACHE_HOME_VAR
      (cacheHomeDefault (resolveValue env HOME_VAR "")) =
        home ++ "/.cache"
    rw [hres]
    unfold resolveValue
    rw [h]
    rfl

theorem claim_C5_witness :
    envHomeOnly HOME_VAR = some "/home/user"
  ∧ ("/home/user" : String) ≠ ""
  ∧ ((envHomeOnly DATA_DIRS_VAR = none →
      xdgDataDirectories (resolveSnapshot envHomeOnly) =
        ["/usr/local/share/", "/usr/share/"])
    ∧ (envHomeOnly CONFIG_DIRS_VAR = none →
      xdgConfigDirectories (resolveSnapshot envHomeOnly) = ["/etc/xdg"])
    ∧ (envHomeOnly DATA_HOME_VAR = none →
      xdgDataHome (resolveSnapshot envHomeOnly) =
        "/home/user" ++ "/.local/share")
    ∧ (envHomeOnly CONFIG_HOME_VAR = none →
      xdgConfigHome (resolveSnapshot envHomeOnly) =
        "/home/user" ++ "/.config")
    ∧ (envHomeOnly CACHE_HOME_VAR = none →
      xdgCacheHome (resolveSnapshot envHomeOnly) =
        "/home/user" ++ "/.cache")) :=
  ⟨rfl, by decide, claim_C5 envHomeOnly "/home/user" rfl (by decide)⟩

/-- Claim C6: environment resolution returns the environment value verbatim
whenever the variable is present with a non-empty value, and returns the
default when the variable is unset or set to the empty string. -/
theorem claim_C6 (env : Env) (varName deflt : String) :
    (∀ v, env varName = some v → v ≠ "" →
      resolveValue env varName deflt = v)
  ∧ (env varName = none → resolveValue env varName deflt = deflt)
  ∧ (env varName = some "" → resolveValue env varName deflt = deflt) := by
  refine ⟨fun v hv hne => ?_, fun h => ?_, fun h => ?_⟩
  · unfold resolveValue
    rw [hv]
    show (if v = "" then deflt else v) = v
    rw [if_neg hne]
  · unfold resolveValue
    rw [h]
  · unfold resolveValue
    rw [h]
    show (if ("" : String) = "" then deflt else "") = deflt
    rw [if_pos rfl]

/-- Claim C7: open enumerates candidates in the same searchable-list order
as find, returns the stream for the first candidate that opens successfully
under the given mode without attempting any remaining candidates (the
instrumented trace stops right after the first success), returns none when
every candidate fails to open, and per-candidate failures never abort the
enumeration before its end (on overall failure the trace covers every
candidate). -/
theorem claim_C7 {α : Type} (fopen : String → Option α) (rel : String)
    (s : Snapshot) :
    (xdgDataOpen fopen rel s =
      ((xdgDataFind (fun f => (fopen f).isSome) rel s).head?).bind fopen)
  ∧ (xdgConfigOpen fopen rel s =
      ((xdgConfigFind (fun f => (fopen f).isSome) rel s).head?).bind fopen)
  ∧ ((openTrace fopen rel (xdgSearchableDataDirectories s)).1 =
      xdgDataOpen fopen rel s)
  ∧ ((openTrace fopen rel (xdgSearchableDataDirectories s)).2 =
      ((xdgSearchableDataDirectories s).map
          (fun d => candidate d rel)).takeWhile (fun f => (fopen f).isNone)
        ++ (((xdgSearchableDataDirectories s).map
          (fun d => candidate d rel)).dropWhile
            (fun f => (fopen f).isNone)).take 1)
  ∧ ((∀ d ∈ xdgSearchableDataDirectories s,
        fopen (candidate d rel) = none) → xdgDataOpen fopen rel s = none)
  ∧ ((∀ d ∈ xdgSearchableConfigDirectories s,
        fopen (candidate d rel) = none) →
      xdgConfigOpen fopen rel s = none) :=
  ⟨openIn_eq_find fopen rel (xdgSearchableDataDirectories s),
   openIn_eq_find fopen rel (xdgSearchableConfigDirectories s),
   openTrace_fst fopen rel (xdgSearchableDataDirectories s),
   openTrace_snd fopen rel (xdgSearchableDataDirectories s),
   fun h => openIn_none fopen rel _ h,
   fun h => openIn_none fopen rel _ h⟩

/-- Claim C8: allocate (`xdgAllocHandle`) either returns a live handle whose
snapshot is the full resolution of all three resource classes, so every
accessor is immediately defined, or returns the failure indicator when
backing storage cannot be obtained — never a partially initialized
handle. -/
theorem claim_C8 (alloc : Nat → Bool) (env : Env) :
    (xdgAllocHandle alloc env = none ∨
      xdgAllocHandle alloc env = some (resolveSnapshot env))
  ∧ (∀ s, xdgAllocHandle alloc env = some s →
      xdgDataHome s = xdgDataHome (resolveSnapshot env)
    ∧ xdgConfigHome s = xdgConfigHome (resolveSnapshot env)
    ∧ xdgCacheHome s = xdgCacheHome (resolveSnapshot env)
    ∧ xdgDataDirectories s = xdgDataDirectories (resolveSnapshot env)
    ∧ xdgConfigDirectories s =
        xdgConfigDirectories (resolveSnapshot env)) := by
  unfold xdgAllocHandle
  by_cases h0 : alloc 0 = true
  · rw [if_pos h0]
    cases hb : buildSnapshot (fun n => alloc (n + 1)) env with
    | none => exact ⟨Or.inl rfl, fun s hs => Option.noConfusion hs⟩
    | some fresh =>
      have hf := buildSnapshot_some (fun n => alloc (n + 1)) env fresh hb
      refine ⟨Or.inr (by rw [hf]), fun s hs => ?_⟩
      have hsf : s = fresh := (Option.some.inj hs).symm
      rw [hsf, hf]
      exact ⟨rfl, rfl, rfl, rfl, rfl⟩
  · rw [if_neg h0]
    exact ⟨Or.inl rfl, fun s hs => Option.noConfusion hs⟩

/-- Claim C9: two consecutive successful rebuild calls under an unchanged
environment produce snapshots with identical outputs from every accessor
(rebuild is idempotent and deterministic given a fixed environment). -/
theorem claim_C9 (alloc1 alloc2 : Nat → Bool) (env : Env) (c : Snapshot)
    (h1 : (xdgUpdateData alloc1 env c).1 = true)
    (h2 : (xdgUpdateData alloc2 env (xdgUpdateData alloc1 env c).2).1 =
      true) :
    ((xdgUpdateData alloc2 env (xdgUpdateData alloc1 env c).2).2 =
      (xdgUpdateData alloc1 env c).2)
  ∧ xdgDataHome (xdgUpdateData alloc2 env (xdgUpdateData alloc1 env c).2).2
      = xdgDataHome (xdgUpdateData alloc1 env c).2
  ∧ xdgConfigHome
      (xdgUpdateData alloc2 env (xdgUpdateData alloc1 env c).2).2 =
      xdgConfigHome (xdgUpdateData alloc1 env c).2
  ∧ xdgCacheHome
      (xdgUpdateData alloc2 env (xdgUpdateData alloc1 env c).2).2 =
      xdgCacheHome (xdgUpdateData alloc1 env c).2
  ∧ xdgDataDirectories
      (xdgUpdateData alloc2 env (xdgUpdateData alloc1 env c).2).2 =
      xdgDataDirectories (xdgUpdateData alloc1 env c).2
  ∧ xdgConfigDirectories
      (xdgUpdateData alloc2 env (xdgUpdateData alloc1 env c).2).2 =
      xdgConfigDirectories (xdgUpdateData alloc1 env c).2
  ∧ xdgSearchableDataDirectories
      (xdgUpdateData alloc2 env (xdgUpdateData alloc1 env c).2).2 =
      xdgSearchableDataDirectories (xdgUpdateData alloc1 env c).2
  ∧ xdgSearchableConfigDirectories
      (xdgUpdateData alloc2 env (xdgUpdateData alloc1 env c).2).2 =
      xdgSearchableConfigDirectories (xdgUpdateData alloc1 env c).2 := by
  have e2 := xdgUpdateData_true alloc2 env (xdgUpdateData alloc1 env c).2 h2
  have e1 := xdgUpdateData_true alloc1 env c h1
  rw [e2, e1]
  exact ⟨rfl, rfl, rfl, rfl, rfl, rfl, rfl, rfl⟩

theorem claim_C9_witness :
    (xdgUpdateData allocAll envHomeOnly snapInit).1 = true
  ∧ (xdgUpdateData allocAll envHomeOnly
      (xdgUpdateData allocAll envHomeOnly snapInit).2).1 = true
  ∧ (xdgUpdateData allocAll envHomeOnly
      (xdgUpdateData allocAll envHomeOnly snapInit).2).2 =
      (xdgUpdateData allocAll envHomeOnly snapInit).2 :=
  ⟨rfl, rfl,
    (claim_C9 allocAll allocAll envHomeOnly snapInit rfl rfl).1⟩

/-- Claim C10: the sequence returned by find is encoded as consecutive
null-terminated strings ended by an empty string (double null); every
reported match is a non-empty string, so the empty string can never itself
be a match, and the zero-match result is exactly the sequence whose first
string is empty. -/
theorem claim_C10 (fs : String → Bool) (rel : String) (s : Snapshot)
    (hrel : '\x00' ∉ rel.data)
    (hdata : ∀ d ∈ xdgSearchableDataDirectories s, '\x00' ∉ d.data)
    (hconf : ∀ d ∈ xdgSearchableConfigDirectories s, '\x00' ∉ d.data) :
    (∀ f ∈ xdgDataFind fs rel s, f ≠ "")
  ∧ (∀ f ∈ xdgConfigFind fs rel s, f ≠ "")
  ∧ decodeSeq (encodeSeq (xdgDataFind fs rel s)) = xdgDataFind fs rel s
  ∧ decodeSeq (encodeSeq (xdgConfigFind fs rel s)) = xdgConfigFind fs rel s
  ∧ encodeSeq [] = ['\x00']
  ∧ takeToNull (encodeSeq []) = [] :=
  ⟨fun f hf => findIn_ne_empty fs rel _ f hf,
   fun f hf => findIn_ne_empty fs rel _ f hf,
   decodeSeq_encodeSeq _ (fun m hm => ⟨findIn_ne_empty fs rel _ m hm,
     findIn_no_null fs rel _ hrel hdata m hm⟩),
   decodeSeq_encodeSeq _ (fun m hm => ⟨findIn_ne_empty fs rel _ m hm,
     findIn_no_null fs rel _ hrel hconf m hm⟩),
   rfl, rfl⟩

theorem claim_C10_witness :
    ('\x00' ∉ "a".data)
  ∧ (∀ d ∈ xdgSearchableDataDirectories snapInit, '\x00' ∉ d.data)
  ∧ (∀ d ∈ xdgSearchableConfigDirectories snapInit, '\x00' ∉ d.data)
  ∧ ((∀ f ∈ xdgDataFind (fun _ => true) "a" snapInit, f ≠ "")
    ∧ (∀ f ∈ xdgConfigFind (fun _ => true) "a" snapInit, f ≠ "")
    ∧ decodeSeq (encodeSeq (xdgDataFind (fun _ => true) "a" snapInit)) =
        xdgDataFind (fun _ => true) "a" snapInit
    ∧ decodeSeq (encodeSeq (xdgConfigFind (fun _ => true) "a" snapInit)) =
        xdgConfigFind (fun _ => true) "a" snapInit
    ∧ encodeSeq [] = ['\x00']
    ∧ takeToNull (encodeSeq []) = []) :=
  ⟨by decide, by decide, by decide,
    claim_C10 (fun _ => true) "a" snapInit (by decide) (by decide)
      (by decide)⟩

end XdgBasedir
